import Mathlib

/-!
# Verification of the daylight-coefficient grid-based recipe

Shallow embedding of `src/honeybee/radiance/recipe/daylightcoeff/gridbased.py`
(class `DaylightCoeffGridBased`).  Pure attributes become Lean functions;
the mutating methods (`simulationType` setter, `write`, `results`) become
explicit state-passing functions; Python exceptions become `Except PyError`.
Collaborators that live outside `src/` (the stage command builders from
`recipeutil` and `AnalysisGrid.setValuesFromFile`) are modelled from the
spec, as marked in their doc comments.
-/

namespace Honeybee

/-- Python exceptions raised by the code under consideration.
`assertionError` models a failed `assert` statement (with its message);
`indexError` models an out-of-range list subscript such as `fn[-2]`. -/
inductive PyError where
  | assertionError (msg : String)
  | indexError
  deriving Repr, DecidableEq

/-- A window group: an identifier plus the number of operable states.
Only `stateCount` and the identifier are read by the compiler. -/
structure WindowGroup where
  name : String
  stateCount : Nat
  deriving Repr, DecidableEq

/-- The sky descriptor (`SkyMatrix`): climate-based flag, point-in-time flag,
density, the mutable sky type (simulation kind recorded on the descriptor)
and the list of hours of the year. -/
structure SkyMatrix where
  isClimateBased : Bool
  isPointInTime : Bool
  skyDensity : Nat
  skyType : Nat
  hoys : List Nat
  deriving Repr, DecidableEq

/-- An analysis grid: a name, a fixed point count (`len(grid)` in Python),
and the numeric-results table written by the merger.  Each entry of
`values` records one `setValuesFromFile` call: the `(source, state)`
identity and the consecutive data lines assigned to this grid. -/
structure AnalysisGrid where
  name : String
  pointCount : Nat
  values : List (String × String × List String)
  deriving Repr, DecidableEq

/-- The shell commands emitted by `write`.  The concrete command strings are
produced by builders outside `src/`, so commands are represented by which
stage emits them; constructor disjointness mirrors the fact that distinct
stages emit distinct command text. -/
inductive Cmd where
  | headerBlock (projectFolder : String)
  | gendaymtx (skyFile : String)
  | sceneDC (projectName : String)
  | wgroupDC (group : String) (state : Nat) (projectName : String)
  deriving Repr, DecidableEq

/-- The recipe state (`DaylightCoeffGridBased` instance): configuration
fields plus the mutable accumulators `_commands`, `_resultFiles` and the
externally-set `_isCalculated` flag. -/
structure DaylightCoeffGridBased where
  skyMatrix : SkyMatrix
  analysisGrids : List AnalysisGrid
  simType : Nat
  reuseDaylightMtx : Bool
  windowGroups : List WindowGroup
  subFolder : String
  commands : List Cmd
  resultFiles : List String
  isCalculated : Bool
  deriving Repr, DecidableEq

namespace DaylightCoeffGridBased

/-- `totalRunsCount` property (gridbased.py lines 178-181):
`sum(wg.stateCount for wg in self.windowGroups) + 1  # 1 for base case`. -/
def totalRunsCount (r : DaylightCoeffGridBased) : Nat :=
  (r.windowGroups.map (fun wg => wg.stateCount)).sum + 1

/-- `simulationType` getter (gridbased.py lines 114-120). -/
def simulationType (r : DaylightCoeffGridBased) : Nat :=
  r.simType

/-- `simulationType` setter (gridbased.py lines 122-138).  The argument is
already an integer (the `try: int(value) except TypeError: value = 0`
coercion is the identity on integers).  The two `assert` statements become
`assertionError` results; on success both `_simType` and
`skyMatrix.skyType` are updated. -/
def setSimulationType (r : DaylightCoeffGridBased) (value : Int) :
    Except PyError DaylightCoeffGridBased :=
  if ¬(0 ≤ value ∧ value ≤ 2) then
    .error (.assertionError
      "Simulation type should be between 0-2.")
  else if value = 1 ∧ r.skyMatrix.isClimateBased = false then
    .error (.assertionError
      "The sky for radition analysis should be climate-based.")
  else
    .ok { r with
          simType := value.toNat,
          skyMatrix := { r.skyMatrix with skyType := value.toNat } }

end DaylightCoeffGridBased

/-- `os.path.split(rf)[-1]` on a POSIX path: the part of the character list
after the last slash. -/
def pathBase (s : List Char) : List Char :=
  (s.reverse.takeWhile (fun c => c ≠ '/')).reverse

/-- Python `s.split("..")`: left-to-right, non-overlapping split on the
two-character delimiter `..`.  Like Python, it never returns an empty list
(splitting the empty string gives one empty piece). -/
def splitOnDD : List Char → List (List Char)
  | [] => [[]]
  | [c] => [[c]]
  | c :: d :: rest =>
      if c = '.' ∧ d = '.' then [] :: splitOnDD rest
      else (splitOnDD (d :: rest)).modifyHead (fun l => c :: l)

/-- Python `base[:-4]`: everything but the last four characters (empty when
the string has at most four characters). -/
def dropExt4 (base : List Char) : List Char :=
  base.take (base.length - 4)

/-- The base name of a result-file path with its last four characters
removed — the string that `results` splits on `".."`. -/
def trimmedBase (rf : List Char) : List Char :=
  dropExt4 (pathBase rf)

/-- The file-name parsing step of `results` (gridbased.py lines 266-268):
`fn = os.path.split(rf)[-1][:-4].split("..")`, `source = fn[-2]`,
`state = fn[-1]`.  In Python `fn[-2]` raises `IndexError` when the split
produced fewer than two pieces; `fn[-1]` always succeeds because `split`
never returns an empty list. -/
def parseCore (rf : List Char) : Except PyError (List Char × List Char) :=
  let fn := splitOnDD (trimmedBase rf)
  if 2 ≤ fn.length then
    .ok (fn.getD (fn.length - 2) [], fn.getLastD [])
  else
    .error .indexError

/-- String-level wrapper of `parseCore`, recovering `(source, state)` from a
result-file path. -/
def parseSourceState (rf : String) : Except PyError (String × String) :=
  match parseCore rf.data with
  | .ok (s, t) => .ok (String.mk s, String.mk t)
  | .error e => .error e

/-- Modelled from the spec: `AnalysisGrid.setValuesFromFile` (the
`AnalysisGrid` class is not under `src/`).  Per the spec the merger
"writes `len(grid)` consecutive data lines starting at a running line
offset": the grid records, under the `(source, state)` identity, the data
lines `[startLine, startLine + pointCount)` of the result file.  The call
in `results` passes `checkPointCount=False`, and per the spec the source
performs no shape check, so none is modelled. -/
def setValuesFromFile (g : AnalysisGrid) (lines : List String)
    (source state : String) (startLine : Nat) : AnalysisGrid :=
  { g with values :=
      g.values ++ [(source, state, (lines.drop startLine).take g.pointCount)] }

/-- The merge loop of `results` (gridbased.py lines 270-278): `startLine`
starts at 0 and, for each grid after the first, grows by the length of the
previous grid before that grid's `setValuesFromFile` call. -/
def mergeFileAux (lines : List String) (source state : String) :
    List AnalysisGrid → Nat → List AnalysisGrid
  | [], _ => []
  | g :: rest, startLine =>
      setValuesFromFile g lines source state startLine
        :: mergeFileAux lines source state rest (startLine + g.pointCount)

/-- One result file merged onto all analysis grids in declaration order,
starting at line offset 0. -/
def mergeFile (grids : List AnalysisGrid) (lines : List String)
    (source state : String) : List AnalysisGrid :=
  mergeFileAux lines source state grids 0

namespace DaylightCoeffGridBased

/-- `results` (gridbased.py lines 258-280).  The file system is passed as
`readFile`, giving the data lines of each result file.  The method first
asserts the externally-set `_isCalculated` flag, then for each result file
parses `(source, state)` from the file name and merges the file onto every
analysis grid, and finally returns the grids. -/
def results (readFile : String → List String) (r : DaylightCoeffGridBased) :
    Except PyError (List AnalysisGrid) :=
  if r.isCalculated then
    r.resultFiles.foldlM
      (fun grids rf =>
        match parseSourceState rf with
        | .ok (source, state) => .ok (mergeFile grids (readFile rf) source state)
        | .error e => .error e)
      r.analysisGrids
  else
    .error (.assertionError
      "You haven\x27t run the Recipe yet. Use self.run to run the analysis before loading the results.")

end DaylightCoeffGridBased

/-- Modelled from the spec: the sky-matrix file that the sky stage produces
for a given sky under a given project folder (the concrete naming lives in
`recipeutil`, not under `src/`; what matters is that it is a function of the
sky and the folder alone). -/
def skyMtxFile (projectFolder : String) (sky : SkyMatrix) : String :=
  projectFolder ++ "/sky/skymtx_r" ++ toString sky.skyDensity ++ ".smx"

/-- Modelled from the spec: `getCommandsSky` from `recipeutil` (not under
`src/`).  Returns the sky-generation commands and the sky file name; per the
spec the sky stage is reused — its commands are omitted while its file is
still declared — exactly when `reuse` is set and a matching sky matrix
already exists on disk (`fs` is the set of existing files). -/
def getCommandsSky (fs : List String) (projectFolder : String)
    (sky : SkyMatrix) (reuse : Bool) : List Cmd × String :=
  (if reuse ∧ fs.contains (skyMtxFile projectFolder sky) then []
   else [Cmd.gendaymtx (skyMtxFile projectFolder sky)],
   skyMtxFile projectFolder sky)

/-- Modelled from the spec: the project-relative result file of the
base-scene daylight-coefficient stage, named so that its last two
`..`-separated segments encode the (source, state) pair. -/
def sceneDCFile (projectName : String) : String :=
  "result/matrix/" ++ projectName ++ "..scene..default.ill"

/-- Modelled from the spec: `getCommandsSceneDaylightCoeff` from
`recipeutil` (not under `src/`).  Per the spec this stage's commands are
skipped — while its output files are still declared — when `reuseMtx` is
true and those output files already exist on disk. -/
def getCommandsSceneDaylightCoeff (fs : List String)
    (projectName projectFolder : String) (reuseMtx : Bool) :
    List Cmd × List String :=
  (if reuseMtx ∧ fs.contains (projectFolder ++ "/" ++ sceneDCFile projectName)
   then []
   else [Cmd.sceneDC projectName],
   [sceneDCFile projectName])

/-- Modelled from the spec: the project-relative result file of the
daylight-coefficient stage of one (window group, state) pair. -/
def wgroupDCFile (projectName : String) (g : WindowGroup) (state : Nat) :
    String :=
  "result/matrix/" ++ projectName ++ ".." ++ g.name ++ ".."
    ++ toString state ++ ".ill"

/-- Modelled from the spec: the daylight-coefficient stage of a single
(window group, state) pair; the reuse policy is evaluated independently at
this granularity. -/
def wgroupStage (fs : List String) (projectName projectFolder : String)
    (reuseMtx : Bool) (g : WindowGroup) (state : Nat) :
    List Cmd × List String :=
  (if reuseMtx
      ∧ fs.contains (projectFolder ++ "/" ++ wgroupDCFile projectName g state)
   then []
   else [Cmd.wgroupDC g.name state projectName],
   [wgroupDCFile projectName g state])

/-- Modelled from the spec: `getCommandsWGroupsDaylightCoeff` from
`recipeutil` (not under `src/`): for each window group, for each of its
operable states, one daylight-coefficient stage. -/
def getCommandsWGroupsDaylightCoeff (fs : List String)
    (projectName projectFolder : String) (wgs : List WindowGroup)
    (reuseMtx : Bool) : List Cmd × List String :=
  let stages := (wgs.map (fun g => (List.range g.stateCount).map
      (wgroupStage fs projectName projectFolder reuseMtx g))).flatten
  ((stages.map (fun p => p.1)).flatten, (stages.map (fun p => p.2)).flatten)

namespace DaylightCoeffGridBased

/-- `write` (gridbased.py lines 183-256).  The file system is passed in as
the list `fs` of files existing on disk.  Geometry, material and points
files are written by collaborators and contribute no commands; the command
accumulator receives, in order, the optional header block, the sky stage
(requested with `reuse=True`), the base-scene stage and the per-window-group
stages, and the result-file accumulator receives the scene and window-group
output files joined under the project folder.  Returns the updated recipe
state and the path of `commands.bat`. -/
def write (fs : List String) (r : DaylightCoeffGridBased)
    (targetFolder projectName : String) (header : Bool) :
    DaylightCoeffGridBased × String :=
  let projectFolder := targetFolder ++ "/" ++ projectName ++ "/" ++ r.subFolder
  let r1 :=
    if header then
      { r with commands := r.commands ++ [Cmd.headerBlock projectFolder] }
    else r
  let sky := getCommandsSky fs projectFolder r.skyMatrix true
  let r2 := { r1 with commands := r1.commands ++ sky.1 }
  let scene :=
    getCommandsSceneDaylightCoeff fs projectName projectFolder r.reuseDaylightMtx
  let r3 := { r2 with
              commands := r2.commands ++ scene.1,
              resultFiles := r2.resultFiles
                ++ scene.2.map (fun res => projectFolder ++ "/" ++ res) }
  let wg := getCommandsWGroupsDaylightCoeff fs projectName projectFolder
    r.windowGroups r.reuseDaylightMtx
  let r4 := { r3 with
              commands := r3.commands ++ wg.1,
              resultFiles := r3.resultFiles
                ++ wg.2.map (fun res => projectFolder ++ "/" ++ res) }
  (r4, projectFolder ++ "/commands.bat")

/-- The commands one `write` call emits (the delta appended to the command
accumulator). -/
def writeCommandsDelta (fs : List String) (r : DaylightCoeffGridBased)
    (targetFolder projectName : String) (header : Bool) : List Cmd :=
  let projectFolder := targetFolder ++ "/" ++ projectName ++ "/" ++ r.subFolder
  (if header then [Cmd.headerBlock projectFolder] else [])
    ++ (getCommandsSky fs projectFolder r.skyMatrix true).1
    ++ (getCommandsSceneDaylightCoeff fs projectName projectFolder
          r.reuseDaylightMtx).1
    ++ (getCommandsWGroupsDaylightCoeff fs projectName projectFolder
          r.windowGroups r.reuseDaylightMtx).1

/-- The result-file names one `write` call declares (the delta appended to
the result-file manifest). -/
def writeResultsDelta (fs : List String) (r : DaylightCoeffGridBased)
    (targetFolder projectName : String) : List String :=
  let projectFolder := targetFolder ++ "/" ++ projectName ++ "/" ++ r.subFolder
  (getCommandsSceneDaylightCoeff fs projectName projectFolder
      r.reuseDaylightMtx).2.map (fun res => projectFolder ++ "/" ++ res)
    ++ (getCommandsWGroupsDaylightCoeff fs projectName projectFolder
          r.windowGroups r.reuseDaylightMtx).2.map
        (fun res => projectFolder ++ "/" ++ res)

end DaylightCoeffGridBased

end Honeybee

open Honeybee Honeybee.DaylightCoeffGridBased

namespace Honeybee.DaylightCoeffGridBased

/-- One `write` call appends exactly its command delta. -/
theorem write_commands_eq (fs : List String) (r : DaylightCoeffGridBased)
    (tf pn : String) (hdr : Bool) :
    ((write fs r tf pn hdr).1).commands
      = r.commands ++ writeCommandsDelta fs r tf pn hdr := by
  cases hdr <;> simp [write, writeCommandsDelta]

/-- One `write` call appends exactly its result-file delta. -/
theorem write_resultFiles_eq (fs : List String) (r : DaylightCoeffGridBased)
    (tf pn : String) (hdr : Bool) :
    ((write fs r tf pn hdr).1).resultFiles
      = r.resultFiles ++ writeResultsDelta fs r tf pn := by
  cases hdr <;> simp [write, writeResultsDelta]

/-- `write` leaves every configuration field of the recipe unchanged; only
the command and result-file accumulators grow. -/
theorem write_config_eq (fs : List String) (r : DaylightCoeffGridBased)
    (tf pn : String) (hdr : Bool) :
    ((write fs r tf pn hdr).1).skyMatrix = r.skyMatrix
    ∧ ((write fs r tf pn hdr).1).reuseDaylightMtx = r.reuseDaylightMtx
    ∧ ((write fs r tf pn hdr).1).windowGroups = r.windowGroups
    ∧ ((write fs r tf pn hdr).1).subFolder = r.subFolder := by
  cases hdr <;> simp [write]

/-- The deltas of a `write` call depend only on the recipe's configuration
fields, not on the accumulators. -/
theorem writeDelta_congr (fs : List String)
    (r1 r2 : DaylightCoeffGridBased) (tf pn : String) (hdr : Bool)
    (hsky : r1.skyMatrix = r2.skyMatrix)
    (hreuse : r1.reuseDaylightMtx = r2.reuseDaylightMtx)
    (hwgs : r1.windowGroups = r2.windowGroups)
    (hsub : r1.subFolder = r2.subFolder) :
    writeCommandsDelta fs r1 tf pn hdr = writeCommandsDelta fs r2 tf pn hdr
    ∧ writeResultsDelta fs r1 tf pn = writeResultsDelta fs r2 tf pn := by
  constructor <;>
    simp [writeCommandsDelta, writeResultsDelta, hsky, hreuse, hwgs, hsub]

end Honeybee.DaylightCoeffGridBased

/-- Claim C1: for every recipe, the derived property `totalRunsCount` equals
1 plus the sum of the `stateCount` of every window group.  The property is a
pure function of the recipe state (it returns a number and no updated
state), so reading it changes no state by construction; this holds for all
configurations. -/
theorem C1_totalRunsCount (r : DaylightCoeffGridBased) :
    r.totalRunsCount
      = 1 + (r.windowGroups.map (fun wg => wg.stateCount)).sum := by
  unfold DaylightCoeffGridBased.totalRunsCount
  omega

/-- Claim C5: setting the simulation kind to radiation (1) fails with the
configuration assertion whenever the sky is not climate-based; when the sky
is climate-based it succeeds, and afterwards both the recipe's kind and the
sky descriptor's recorded kind equal the value that was set. -/
theorem C5_simulationType_radiation (r : DaylightCoeffGridBased) :
    (r.skyMatrix.isClimateBased = false →
      r.setSimulationType 1
        = .error (.assertionError
            "The sky for radition analysis should be climate-based."))
    ∧ (r.skyMatrix.isClimateBased = true →
      ∃ r2, r.setSimulationType 1 = .ok r2
        ∧ r2.simulationType = 1
        ∧ r2.skyMatrix.skyType = 1) := by
  constructor
  · intro h
    unfold DaylightCoeffGridBased.setSimulationType
    simp [h]
  · intro h
    refine ⟨{ r with simType := 1,
                     skyMatrix := { r.skyMatrix with skyType := 1 } },
            ?_, rfl, rfl⟩
    unfold DaylightCoeffGridBased.setSimulationType
    simp [h]

/-- Witness for C5 at a concrete recipe with a climate-based sky and one
with a non-climate-based sky. -/
theorem C5_simulationType_radiation_witness :
    (DaylightCoeffGridBased.setSimulationType
        { skyMatrix := { isClimateBased := false, isPointInTime := false,
                         skyDensity := 1, skyType := 0, hoys := [] },
          analysisGrids := [], simType := 0, reuseDaylightMtx := true,
          windowGroups := [], subFolder := "gridbased_daylightcoeff",
          commands := [], resultFiles := [], isCalculated := false } 1
      = .error (.assertionError
          "The sky for radition analysis should be climate-based."))
    ∧ ∃ r2, (DaylightCoeffGridBased.setSimulationType
        { skyMatrix := { isClimateBased := true, isPointInTime := false,
                         skyDensity := 1, skyType := 0, hoys := [] },
          analysisGrids := [], simType := 0, reuseDaylightMtx := true,
          windowGroups := [], subFolder := "gridbased_daylightcoeff",
          commands := [], resultFiles := [], isCalculated := false } 1
      = .ok r2) ∧ r2.simulationType = 1 ∧ r2.skyMatrix.skyType = 1 :=
  ⟨(C5_simulationType_radiation _).1 rfl,
   (C5_simulationType_radiation _).2 rfl⟩

/-- Claim C9: each `write` call appends to the instance's command list and
result-file manifest rather than replacing them, so two successive calls on
the same instance accumulate both batches — `write` is not idempotent. -/
theorem C9_write_accumulates
    (fs1 fs2 : List String) (r : DaylightCoeffGridBased)
    (tf1 pn1 tf2 pn2 : String) (h1 h2 : Bool) :
    ((write fs1 r tf1 pn1 h1).1).commands
        = r.commands ++ writeCommandsDelta fs1 r tf1 pn1 h1
    ∧ ((write fs1 r tf1 pn1 h1).1).resultFiles
        = r.resultFiles ++ writeResultsDelta fs1 r tf1 pn1
    ∧ ((write fs2 (write fs1 r tf1 pn1 h1).1 tf2 pn2 h2).1).commands
        = r.commands ++ writeCommandsDelta fs1 r tf1 pn1 h1
            ++ writeCommandsDelta fs2 r tf2 pn2 h2
    ∧ ((write fs2 (write fs1 r tf1 pn1 h1).1 tf2 pn2 h2).1).resultFiles
        = r.resultFiles ++ writeResultsDelta fs1 r tf1 pn1
            ++ writeResultsDelta fs2 r tf2 pn2 := by
  obtain ⟨hsky, hreuse, hwgs, hsub⟩ := write_config_eq fs1 r tf1 pn1 h1
  obtain ⟨hc, hr⟩ :=
    writeDelta_congr fs2 ((write fs1 r tf1 pn1 h1).1) r tf2 pn2 h2
      hsky hreuse hwgs hsub
  refine ⟨write_commands_eq fs1 r tf1 pn1 h1,
          write_resultFiles_eq fs1 r tf1 pn1 h1, ?_, ?_⟩
  · rw [write_commands_eq fs2 _ tf2 pn2 h2,
        write_commands_eq fs1 r tf1 pn1 h1, hc, List.append_assoc]
  · rw [write_resultFiles_eq fs2 _ tf2 pn2 h2,
        write_resultFiles_eq fs1 r tf1 pn1 h1, hr, List.append_assoc]

namespace Honeybee

/-- Recognizer for sky-generation commands. -/
def isSkyCmd : Cmd → Bool
  | .gendaymtx _ => true
  | _ => false

/-- The commands of one (window group, state) stage: the stage command when
not reused, nothing when reused. -/
theorem mem_wgroupStage_commands (fs : List String) (pn pf : String)
    (rm : Bool) (g : WindowGroup) (i : Nat) (c : Cmd) :
    c ∈ (wgroupStage fs pn pf rm g i).1
      ↔ c = Cmd.wgroupDC g.name i pn
        ∧ ¬(rm = true
            ∧ fs.contains (pf ++ "/" ++ wgroupDCFile pn g i) = true) := by
  unfold wgroupStage
  split_ifs with h
  · simp only [List.not_mem_nil, false_iff]
    rintro ⟨-, hn⟩
    exact hn h
  · simp only [List.mem_singleton, iff_self_and]
    intro _
    exact h

/-- Membership in the window-group builder's command list, characterized per
(group, state) pair. -/
theorem mem_wgroups_commands (fs : List String) (pn pf : String)
    (wgs : List WindowGroup) (rm : Bool) (c : Cmd) :
    c ∈ (getCommandsWGroupsDaylightCoeff fs pn pf wgs rm).1
      ↔ ∃ g ∈ wgs, ∃ i, i < g.stateCount
          ∧ c = Cmd.wgroupDC g.name i pn
          ∧ ¬(rm = true
              ∧ fs.contains (pf ++ "/" ++ wgroupDCFile pn g i) = true) := by
  unfold getCommandsWGroupsDaylightCoeff
  simp only [List.mem_flatten, List.mem_map]
  constructor
  · rintro ⟨l, ⟨p, hp, rfl⟩, hc⟩
    obtain ⟨l2, ⟨g, hg, rfl⟩, hp2⟩ := hp
    obtain ⟨i, hi, rfl⟩ := List.mem_map.mp hp2
    have hi2 := List.mem_range.mp hi
    exact ⟨g, hg, i, hi2, (mem_wgroupStage_commands fs pn pf rm g i c).mp hc⟩
  · rintro ⟨g, hg, i, hi, hc, hnr⟩
    refine ⟨(wgroupStage fs pn pf rm g i).1,
      ⟨wgroupStage fs pn pf rm g i,
        ⟨(List.range g.stateCount).map (wgroupStage fs pn pf rm g),
          ⟨g, hg, rfl⟩, List.mem_map.mpr ⟨i, List.mem_range.mpr hi, rfl⟩⟩,
        rfl⟩, ?_⟩
    exact (mem_wgroupStage_commands fs pn pf rm g i c).mpr ⟨hc, hnr⟩

/-- Membership in the window-group builder's declared outputs: one output
file per (group, state) pair, declared whether or not the stage is
reused. -/
theorem mem_wgroups_results (fs : List String) (pn pf : String)
    (wgs : List WindowGroup) (rm : Bool) (o : String) :
    o ∈ (getCommandsWGroupsDaylightCoeff fs pn pf wgs rm).2
      ↔ ∃ g ∈ wgs, ∃ i, i < g.stateCount ∧ o = wgroupDCFile pn g i := by
  unfold getCommandsWGroupsDaylightCoeff
  simp only [List.mem_flatten, List.mem_map]
  constructor
  · rintro ⟨l, ⟨p, hp, rfl⟩, hc⟩
    obtain ⟨l2, ⟨g, hg, rfl⟩, hp2⟩ := hp
    obtain ⟨i, hi, rfl⟩ := List.mem_map.mp hp2
    have hi2 := List.mem_range.mp hi
    refine ⟨g, hg, i, hi2, ?_⟩
    unfold wgroupStage at hc
    split_ifs at hc <;> simpa using hc
  · rintro ⟨g, hg, i, hi, rfl⟩
    refine ⟨(wgroupStage fs pn pf rm g i).2,
      ⟨wgroupStage fs pn pf rm g i,
        ⟨(List.range g.stateCount).map (wgroupStage fs pn pf rm g),
          ⟨g, hg, rfl⟩, List.mem_map.mpr ⟨i, List.mem_range.mpr hi, rfl⟩⟩,
        rfl⟩, ?_⟩
    unfold wgroupStage
    split_ifs <;> simp

/-- No window-group stage emits a sky command. -/
theorem filter_isSkyCmd_wgroups (fs : List String) (pn pf : String)
    (wgs : List WindowGroup) (rm : Bool) :
    (getCommandsWGroupsDaylightCoeff fs pn pf wgs rm).1.filter isSkyCmd
      = [] := by
  rw [List.filter_eq_nil_iff]
  intro c hc
  obtain ⟨g, _, i, _, rfl, _⟩ := (mem_wgroups_commands fs pn pf wgs rm c).mp hc
  simp [isSkyCmd]

/-- The base-scene stage emits no sky command. -/
theorem filter_isSkyCmd_scene (fs : List String) (pn pf : String)
    (rm : Bool) :
    (getCommandsSceneDaylightCoeff fs pn pf rm).1.filter isSkyCmd = [] := by
  unfold getCommandsSceneDaylightCoeff
  split_ifs <;> simp [isSkyCmd]

end Honeybee

namespace Honeybee

/-- The commands of the sky stage contain at most one sky command, and none
at all when the sky file already exists and reuse is requested. -/
theorem countP_isSkyCmd_sky (fs : List String) (pf : String)
    (sky : SkyMatrix) (reuse : Bool) :
    ((getCommandsSky fs pf sky reuse).1).countP isSkyCmd ≤ 1 := by
  unfold getCommandsSky
  split_ifs <;> simp [isSkyCmd]

/-- The window-group stages contribute no sky command. -/
theorem countP_isSkyCmd_wgroups (fs : List String) (pn pf : String)
    (wgs : List WindowGroup) (rm : Bool) :
    ((getCommandsWGroupsDaylightCoeff fs pn pf wgs rm).1).countP isSkyCmd
      = 0 := by
  rw [List.countP_eq_length_filter, filter_isSkyCmd_wgroups]
  rfl

end Honeybee

/-- Claim C3: `write` requests the sky stage with reuse enabled
unconditionally: whenever the matching sky-matrix file already exists on
disk, no sky-generation command is emitted — independently of the recipe's
`reuseDaylightMtx` flag and of the window groups — and at most one sky
command ever appears in the emitted batch. -/
theorem C3_sky_stage_always_reused (fs : List String)
    (r : DaylightCoeffGridBased) (tf pn : String) (hdr : Bool) :
    (fs.contains
        (skyMtxFile (tf ++ "/" ++ pn ++ "/" ++ r.subFolder) r.skyMatrix)
          = true →
      ∀ f, Cmd.gendaymtx f ∉ writeCommandsDelta fs r tf pn hdr)
    ∧ (writeCommandsDelta fs r tf pn hdr).countP isSkyCmd ≤ 1
    ∧ ∀ b wgs,
        (writeCommandsDelta fs
            { r with reuseDaylightMtx := b, windowGroups := wgs }
            tf pn hdr).filter isSkyCmd
          = (writeCommandsDelta fs r tf pn hdr).filter isSkyCmd := by
  refine ⟨?_, ?_, ?_⟩
  · intro hc f hmem
    unfold writeCommandsDelta at hmem
    rw [List.mem_append, List.mem_append, List.mem_append] at hmem
    rcases hmem with ((hmem | hmem) | hmem) | hmem
    · cases hdr <;> simp at hmem
    · unfold getCommandsSky at hmem
      rw [if_pos ⟨rfl, hc⟩] at hmem
      simp at hmem
    · unfold getCommandsSceneDaylightCoeff at hmem
      split_ifs at hmem <;> simp at hmem
    · obtain ⟨g, -, i, -, heq, -⟩ :=
        (mem_wgroups_commands fs pn _ r.windowGroups r.reuseDaylightMtx
          (Cmd.gendaymtx f)).mp hmem
      exact Cmd.noConfusion heq
  · unfold writeCommandsDelta
    rw [List.countP_append, List.countP_append, List.countP_append,
        countP_isSkyCmd_wgroups]
    have h1 : ((if hdr then
        [Cmd.headerBlock (tf ++ "/" ++ pn ++ "/" ++ r.subFolder)]
        else []) : List Cmd).countP isSkyCmd = 0 := by
      cases hdr <;> simp [isSkyCmd]
    have h2 : ((getCommandsSceneDaylightCoeff fs pn
        (tf ++ "/" ++ pn ++ "/" ++ r.subFolder)
        r.reuseDaylightMtx).1).countP isSkyCmd = 0 := by
      rw [List.countP_eq_length_filter, filter_isSkyCmd_scene]
      rfl
    rw [h1, h2]
    have h3 := countP_isSkyCmd_sky fs (tf ++ "/" ++ pn ++ "/" ++ r.subFolder)
      r.skyMatrix true
    omega
  · intro b wgs
    unfold writeCommandsDelta
    rw [List.filter_append, List.filter_append, List.filter_append,
        List.filter_append, List.filter_append, List.filter_append,
        filter_isSkyCmd_wgroups, filter_isSkyCmd_wgroups,
        filter_isSkyCmd_scene, filter_isSkyCmd_scene]

/-- Witness for C3 at a concrete recipe and file system on which the sky
matrix already exists: despite `reuseDaylightMtx := false`, no sky command
is emitted, and the sky section of the batch is insensitive to the reuse
flag and the window groups. -/
theorem C3_sky_stage_always_reused_witness :
    ([("t/p/sub/sky/skymtx_r1.smx" : String)].contains
        (skyMtxFile ("t" ++ "/" ++ "p" ++ "/" ++ "sub")
          { isClimateBased := true, isPointInTime := false, skyDensity := 1,
            skyType := 0, hoys := [8] }) = true)
    ∧ (Cmd.gendaymtx "t/p/sub/sky/skymtx_r1.smx"
        ∉ writeCommandsDelta ["t/p/sub/sky/skymtx_r1.smx"]
            { skyMatrix := { isClimateBased := true, isPointInTime := false,
                             skyDensity := 1, skyType := 0, hoys := [8] },
              analysisGrids := [], simType := 0, reuseDaylightMtx := false,
              windowGroups := [{ name := "wg1", stateCount := 2 }],
              subFolder := "sub", commands := [], resultFiles := [],
              isCalculated := false }
            "t" "p" true) :=
  ⟨by decide,
   (C3_sky_stage_always_reused ["t/p/sub/sky/skymtx_r1.smx"]
      { skyMatrix := { isClimateBased := true, isPointInTime := false,
                       skyDensity := 1, skyType := 0, hoys := [8] },
        analysisGrids := [], simType := 0, reuseDaylightMtx := false,
        windowGroups := [{ name := "wg1", stateCount := 2 }],
        subFolder := "sub", commands := [], resultFiles := [],
        isCalculated := false }
      "t" "p" true).1 (by decide) "t/p/sub/sky/skymtx_r1.smx"⟩

/-- Claim C2: with `reuseDaylightMtx = true` and a stage's output already on
disk, `write` still declares that stage's output file in the result-file
manifest but emits none of that stage's generation commands; with
`reuseDaylightMtx = false` the stage's commands are always emitted,
regardless of which files exist.  This holds for the base-scene stage and,
independently per (group, state) pair, for every window-group stage (the
non-emission statement for a window-group stage assumes the group names are
distinct, since two groups of the same name share their command). -/
theorem C2_reuse_skips_commands_keeps_outputs (fs : List String)
    (r : DaylightCoeffGridBased) (tf pn : String) (hdr : Bool) :
    (r.reuseDaylightMtx = true →
      fs.contains
          (tf ++ "/" ++ pn ++ "/" ++ r.subFolder ++ "/" ++ sceneDCFile pn)
            = true →
        (tf ++ "/" ++ pn ++ "/" ++ r.subFolder ++ "/" ++ sceneDCFile pn)
            ∈ writeResultsDelta fs r tf pn
        ∧ Cmd.sceneDC pn ∉ writeCommandsDelta fs r tf pn hdr)
    ∧ (r.reuseDaylightMtx = false →
        Cmd.sceneDC pn ∈ writeCommandsDelta fs r tf pn hdr
        ∧ (tf ++ "/" ++ pn ++ "/" ++ r.subFolder ++ "/" ++ sceneDCFile pn)
            ∈ writeResultsDelta fs r tf pn)
    ∧ ∀ g ∈ r.windowGroups, ∀ i, i < g.stateCount →
        (r.reuseDaylightMtx = true →
          fs.contains (tf ++ "/" ++ pn ++ "/" ++ r.subFolder ++ "/"
              ++ wgroupDCFile pn g i) = true →
            (tf ++ "/" ++ pn ++ "/" ++ r.subFolder ++ "/"
                ++ wgroupDCFile pn g i) ∈ writeResultsDelta fs r tf pn
            ∧ ((r.windowGroups.map (fun w => w.name)).Nodup →
                Cmd.wgroupDC g.name i pn
                  ∉ writeCommandsDelta fs r tf pn hdr))
        ∧ (r.reuseDaylightMtx = false →
            Cmd.wgroupDC g.name i pn ∈ writeCommandsDelta fs r tf pn hdr) := by
  refine ⟨?_, ?_, ?_⟩
  · intro hre hex
    constructor
    · unfold writeResultsDelta
      rw [List.mem_append]
      left
      unfold getCommandsSceneDaylightCoeff
      split_ifs <;> simp
    · intro hmem
      unfold writeCommandsDelta at hmem
      rw [List.mem_append, List.mem_append, List.mem_append] at hmem
      rcases hmem with ((hmem | hmem) | hmem) | hmem
      · cases hdr <;> simp at hmem
      · unfold getCommandsSky at hmem
        split_ifs at hmem <;> simp at hmem
      · unfold getCommandsSceneDaylightCoeff at hmem
        rw [if_pos ⟨hre, hex⟩] at hmem
        simp at hmem
      · obtain ⟨g, -, i, -, heq, -⟩ :=
          (mem_wgroups_commands fs pn _ r.windowGroups r.reuseDaylightMtx
            (Cmd.sceneDC pn)).mp hmem
        exact Cmd.noConfusion heq
  · intro hre
    constructor
    · unfold writeCommandsDelta
      rw [List.mem_append, List.mem_append, List.mem_append]
      left; right
      unfold getCommandsSceneDaylightCoeff
      rw [if_neg]
      · simp
      · rintro ⟨h1, -⟩
        rw [hre] at h1
        exact Bool.noConfusion h1
    · unfold writeResultsDelta
      rw [List.mem_append]
      left
      unfold getCommandsSceneDaylightCoeff
      split_ifs <;> simp
  · intro g hg i hi
    constructor
    · intro hre hex
      constructor
      · unfold writeResultsDelta
        rw [List.mem_append]
        right
        rw [List.mem_map]
        exact ⟨wgroupDCFile pn g i,
          (mem_wgroups_results fs pn _ r.windowGroups r.reuseDaylightMtx
            (wgroupDCFile pn g i)).mpr ⟨g, hg, i, hi, rfl⟩, rfl⟩
      · intro hnodup hmem
        unfold writeCommandsDelta at hmem
        rw [List.mem_append, List.mem_append, List.mem_append] at hmem
        rcases hmem with ((hmem | hmem) | hmem) | hmem
        · cases hdr <;> simp at hmem
        · unfold getCommandsSky at hmem
          split_ifs at hmem <;> simp at hmem
        · unfold getCommandsSceneDaylightCoeff at hmem
          split_ifs at hmem <;> simp at hmem
        · obtain ⟨g2, hg2, i2, hi2, heq, hnr⟩ :=
            (mem_wgroups_commands fs pn _ r.windowGroups r.reuseDaylightMtx
              (Cmd.wgroupDC g.name i pn)).mp hmem
          obtain ⟨hname, hstate, -⟩ := Cmd.wgroupDC.inj heq
          have hgg : g = g2 :=
            List.inj_on_of_nodup_map hnodup hg hg2 hname
          subst hgg
          rw [← hstate] at hnr
          exact hnr ⟨hre, hex⟩
    · intro hre
      unfold writeCommandsDelta
      rw [List.mem_append, List.mem_append, List.mem_append]
      right
      refine (mem_wgroups_commands fs pn _ r.windowGroups
        r.reuseDaylightMtx (Cmd.wgroupDC g.name i pn)).mpr
        ⟨g, hg, i, hi, rfl, ?_⟩
      rintro ⟨h1, -⟩
      rw [hre] at h1
      exact Bool.noConfusion h1

/-- Witness for C2: on a concrete recipe with one window group of two
states and both stage outputs already on disk, `write` with reuse enabled
declares the outputs but emits neither stage's command, and with reuse
disabled it emits both commands. -/
theorem C2_reuse_skips_commands_keeps_outputs_witness :
    (("t" ++ "/" ++ "p" ++ "/" ++ "sub" ++ "/" ++ sceneDCFile "p")
        ∈ writeResultsDelta
            ["t/p/sub/result/matrix/p..scene..default.ill",
             "t/p/sub/result/matrix/p..wg1..1.ill"]
            { skyMatrix := { isClimateBased := true, isPointInTime := false,
                             skyDensity := 1, skyType := 0, hoys := [8] },
              analysisGrids := [], simType := 0, reuseDaylightMtx := true,
              windowGroups := [{ name := "wg1", stateCount := 2 }],
              subFolder := "sub", commands := [], resultFiles := [],
              isCalculated := false }
            "t" "p")
    ∧ (Cmd.sceneDC "p"
        ∉ writeCommandsDelta
            ["t/p/sub/result/matrix/p..scene..default.ill",
             "t/p/sub/result/matrix/p..wg1..1.ill"]
            { skyMatrix := { isClimateBased := true, isPointInTime := false,
                             skyDensity := 1, skyType := 0, hoys := [8] },
              analysisGrids := [], simType := 0, reuseDaylightMtx := true,
              windowGroups := [{ name := "wg1", stateCount := 2 }],
              subFolder := "sub", commands := [], resultFiles := [],
              isCalculated := false }
            "t" "p" true)
    ∧ (Cmd.wgroupDC "wg1" 1 "p"
        ∉ writeCommandsDelta
            ["t/p/sub/result/matrix/p..scene..default.ill",
             "t/p/sub/result/matrix/p..wg1..1.ill"]
            { skyMatrix := { isClimateBased := true, isPointInTime := false,
                             skyDensity := 1, skyType := 0, hoys := [8] },
              analysisGrids := [], simType := 0, reuseDaylightMtx := true,
              windowGroups := [{ name := "wg1", stateCount := 2 }],
              subFolder := "sub", commands := [], resultFiles := [],
              isCalculated := false }
            "t" "p" true)
    ∧ (Cmd.sceneDC "p"
        ∈ writeCommandsDelta
            ["t/p/sub/result/matrix/p..scene..default.ill",
             "t/p/sub/result/matrix/p..wg1..1.ill"]
            { skyMatrix := { isClimateBased := true, isPointInTime := false,
                             skyDensity := 1, skyType := 0, hoys := [8] },
              analysisGrids := [], simType := 0, reuseDaylightMtx := false,
              windowGroups := [{ name := "wg1", stateCount := 2 }],
              subFolder := "sub", commands := [], resultFiles := [],
              isCalculated := false }
            "t" "p" true)
    ∧ (Cmd.wgroupDC "wg1" 1 "p"
        ∈ writeCommandsDelta
            ["t/p/sub/result/matrix/p..scene..default.ill",
             "t/p/sub/result/matrix/p..wg1..1.ill"]
            { skyMatrix := { isClimateBased := true, isPointInTime := false,
                             skyDensity := 1, skyType := 0, hoys := [8] },
              analysisGrids := [], simType := 0, reuseDaylightMtx := false,
              windowGroups := [{ name := "wg1", stateCount := 2 }],
              subFolder := "sub", commands := [], resultFiles := [],
              isCalculated := false }
            "t" "p" true) := by
  refine ⟨?_, ?_, ?_, ?_, ?_⟩
  · exact ((C2_reuse_skips_commands_keeps_outputs _ _ "t" "p" true).1
      rfl (by decide)).1
  · exact ((C2_reuse_skips_commands_keeps_outputs _ _ "t" "p" true).1
      rfl (by decide)).2
  · exact (((C2_reuse_skips_commands_keeps_outputs _ _ "t" "p" true).2.2
      { name := "wg1", stateCount := 2 } (by decide) 1 (by decide)).1
      rfl (by decide)).2 (by decide)
  · exact ((C2_reuse_skips_commands_keeps_outputs _ _ "t" "p" true).2.1
      rfl).1
  · exact ((C2_reuse_skips_commands_keeps_outputs _ _ "t" "p" true).2.2
      { name := "wg1", stateCount := 2 } (by decide) 1 (by decide)).2 rfl

namespace Honeybee

/-- The `k`-th grid processed by the merge loop receives start line
`start + (sum of the point counts of the grids before it)`. -/
theorem mergeFileAux_getD (lines : List String) (source state : String)
    (d : AnalysisGrid) (grids : List AnalysisGrid) :
    ∀ (start k : Nat), k < grids.length →
      (mergeFileAux lines source state grids start).getD k d
        = setValuesFromFile (grids.getD k d) lines source state
            (start + ((grids.take k).map (fun g => g.pointCount)).sum) := by
  induction grids with
  | nil =>
      intro start k h
      simp at h
  | cons g rest ih =>
      intro start k h
      cases k with
      | zero => simp [mergeFileAux]
      | succ k =>
          have h2 : k < rest.length := by simpa using h
          have ih2 := ih (start + g.pointCount) k h2
          simp only [mergeFileAux, List.getD_cons_succ, List.take_succ_cons,
            List.map_cons, List.sum_cons, ih2, Nat.add_assoc]

end Honeybee

/-- Claim C4: when the merger processes one result file, grid `k` (in
declaration order) receives `pointCount` consecutive data lines starting at
the line offset equal to the sum of the point counts of all grids before
it; in particular, for two grids declared in order, the second grid's
values are read starting at line `g1.pointCount`, never at line 0. -/
theorem C4_merger_line_offsets (grids : List AnalysisGrid)
    (lines : List String) (source state : String) (d : AnalysisGrid)
    (k : Nat) (hk : k < grids.length) :
    ((mergeFile grids lines source state).getD k d
      = setValuesFromFile (grids.getD k d) lines source state
          ((grids.take k).map (fun g => g.pointCount)).sum)
    ∧ (∀ g1 g2 : AnalysisGrid,
        mergeFile [g1, g2] lines source state
          = [setValuesFromFile g1 lines source state 0,
             setValuesFromFile g2 lines source state g1.pointCount])
    ∧ (∀ g1 g2 : AnalysisGrid,
        ((mergeFile [g1, g2] lines source state).getD 1 d).values
          = g2.values
            ++ [(source, state,
                 (lines.drop g1.pointCount).take g2.pointCount)]) := by
  refine ⟨?_, ?_, ?_⟩
  · have h := mergeFileAux_getD lines source state d grids 0 k hk
    simpa [mergeFile] using h
  · intro g1 g2
    simp [mergeFile, mergeFileAux]
  · intro g1 g2
    simp [mergeFile, mergeFileAux, setValuesFromFile]

/-- Witness for C4 at two concrete grids of sizes 2 and 3 and a five-line
result file: the second grid receives lines 2, 3 and 4. -/
theorem C4_merger_line_offsets_witness :
    (1 < ([{ name := "g1", pointCount := 2, values := [] },
           { name := "g2", pointCount := 3, values := [] }]
            : List AnalysisGrid).length)
    ∧ (mergeFile
        [{ name := "g1", pointCount := 2, values := [] },
         { name := "g2", pointCount := 3, values := [] }]
        ["a", "b", "c", "d", "e"] "s" "0").getD 1
          { name := "", pointCount := 0, values := [] }
        = setValuesFromFile
            (([{ name := "g1", pointCount := 2, values := [] },
               { name := "g2", pointCount := 3, values := [] }]
                : List AnalysisGrid).getD 1
              { name := "", pointCount := 0, values := [] })
            ["a", "b", "c", "d", "e"] "s" "0"
            ((([{ name := "g1", pointCount := 2, values := [] },
                { name := "g2", pointCount := 3, values := [] }]
                 : List AnalysisGrid).take 1).map
              (fun g => g.pointCount)).sum :=
  ⟨by decide,
   (C4_merger_line_offsets
      [{ name := "g1", pointCount := 2, values := [] },
       { name := "g2", pointCount := 3, values := [] }]
      ["a", "b", "c", "d", "e"] "s" "0"
      { name := "", pointCount := 0, values := [] } 1 (by decide)).1⟩

namespace Honeybee

/-- When every result-file name parses, the merge fold of `results`
succeeds. -/
theorem foldlM_merge_ok (readFile : String → List String)
    (files : List String) :
    ∀ grids : List AnalysisGrid,
      (∀ rf ∈ files, ∃ s t, parseSourceState rf = .ok (s, t)) →
      ∃ gs, (files.foldlM (fun grids rf =>
          match parseSourceState rf with
          | .ok (source, state) =>
              Except.ok (mergeFile grids (readFile rf) source state)
          | .error e => Except.error e) grids
            : Except PyError (List AnalysisGrid)) = .ok gs := by
  induction files with
  | nil =>
      intro grids _
      exact ⟨grids, rfl⟩
  | cons rf rest ih =>
      intro grids h
      obtain ⟨s, t, hst⟩ := h rf (List.mem_cons_self rf rest)
      have hrest : ∀ x ∈ rest, ∃ s2 t2, parseSourceState x = .ok (s2, t2) :=
        fun x hx => h x (List.mem_cons_of_mem rf hx)
      obtain ⟨gs, hgs⟩ := ih (mergeFile grids (readFile rf) s t) hrest
      refine ⟨gs, ?_⟩
      rw [List.foldlM_cons, hst]
      simpa using hgs

end Honeybee

/-- Claim C8: calling `results` on a recipe whose externally-set
`_isCalculated` flag is unset fails with the "recipe has not been run"
assertion; when the flag is set (and the result-file names parse),
`results` proceeds to merge and returns analysis grids. -/
theorem C8_results_requires_run (readFile : String → List String)
    (r : DaylightCoeffGridBased) :
    (r.isCalculated = false →
      r.results readFile = .error (.assertionError
        "You haven\x27t run the Recipe yet. Use self.run to run the analysis before loading the results."))
    ∧ (r.isCalculated = true →
        (∀ rf ∈ r.resultFiles, ∃ s t, parseSourceState rf = .ok (s, t)) →
        ∃ gs, r.results readFile = .ok gs) := by
  constructor
  · intro h
    simp [DaylightCoeffGridBased.results, h]
  · intro h hall
    unfold DaylightCoeffGridBased.results
    rw [if_pos h]
    exact foldlM_merge_ok readFile r.resultFiles r.analysisGrids hall

/-- Witness for C8: a concrete recipe with the flag unset fails, and the
same recipe with the flag set and one well-formed result file returns
grids. -/
theorem C8_results_requires_run_witness :
    ((DaylightCoeffGridBased.results (fun _ => ["5"])
        { skyMatrix := { isClimateBased := true, isPointInTime := false,
                         skyDensity := 1, skyType := 0, hoys := [8] },
          analysisGrids := [{ name := "g1", pointCount := 1, values := [] }],
          simType := 0, reuseDaylightMtx := true, windowGroups := [],
          subFolder := "sub", commands := [],
          resultFiles := ["p..s..0.ill"], isCalculated := false })
      = .error (.assertionError
        "You haven\x27t run the Recipe yet. Use self.run to run the analysis before loading the results."))
    ∧ ∃ gs, (DaylightCoeffGridBased.results (fun _ => ["5"])
        { skyMatrix := { isClimateBased := true, isPointInTime := false,
                         skyDensity := 1, skyType := 0, hoys := [8] },
          analysisGrids := [{ name := "g1", pointCount := 1, values := [] }],
          simType := 0, reuseDaylightMtx := true, windowGroups := [],
          subFolder := "sub", commands := [],
          resultFiles := ["p..s..0.ill"], isCalculated := true })
      = .ok gs :=
  ⟨(C8_results_requires_run (fun _ => ["5"])
      { skyMatrix := { isClimateBased := true, isPointInTime := false,
                       skyDensity := 1, skyType := 0, hoys := [8] },
        analysisGrids := [{ name := "g1", pointCount := 1, values := [] }],
        simType := 0, reuseDaylightMtx := true, windowGroups := [],
        subFolder := "sub", commands := [],
        resultFiles := ["p..s..0.ill"], isCalculated := false }).1 rfl,
   (C8_results_requires_run (fun _ => ["5"])
      { skyMatrix := { isClimateBased := true, isPointInTime := false,
                       skyDensity := 1, skyType := 0, hoys := [8] },
        analysisGrids := [{ name := "g1", pointCount := 1, values := [] }],
        simType := 0, reuseDaylightMtx := true, windowGroups := [],
        subFolder := "sub", commands := [],
        resultFiles := ["p..s..0.ill"], isCalculated := true }).2 rfl
     (by
        intro rf hrf
        rw [List.mem_singleton] at hrf
        subst hrf
        exact ⟨"s", "0", by rfl⟩)⟩

/-- Claim C7 (failing input): with two declared grids of one point each
(total 2) and a result file of 3 data lines, the merger does NOT fail with
any shape error — it silently assigns line 0 to grid 1 and line 1 to
grid 2 and ignores the extra line.  The claim that it fails fast with a
`ResultShapeMismatchError` contradicts the code: no shape check exists
(`results` passes `checkPointCount=False` and never compares the file's
line count with the sum of grid sizes). -/
theorem C7_no_shape_check_at_mismatched_file :
    (["1", "2", "3"].length
        ≠ (([{ name := "g1", pointCount := 1, values := [] },
             { name := "g2", pointCount := 1, values := [] }]
              : List AnalysisGrid).map (fun g => g.pointCount)).sum)
    ∧ (DaylightCoeffGridBased.results (fun _ => ["1", "2", "3"])
        { skyMatrix := { isClimateBased := true, isPointInTime := false,
                         skyDensity := 1, skyType := 0, hoys := [8] },
          analysisGrids := [{ name := "g1", pointCount := 1, values := [] },
                            { name := "g2", pointCount := 1, values := [] }],
          simType := 0, reuseDaylightMtx := true, windowGroups := [],
          subFolder := "sub", commands := [],
          resultFiles := ["p..s..0.ill"], isCalculated := true }
      = .ok [{ name := "g1", pointCount := 1,
               values := [("s", "0", ["1"])] },
             { name := "g2", pointCount := 1,
               values := [("s", "0", ["2"])] }]) :=
  ⟨by decide, by rfl⟩

namespace Honeybee

/-- `splitOnDD` never returns the empty list (Python `split` always yields
at least one piece). -/
theorem splitOnDD_ne_nil (l : List Char) : splitOnDD l ≠ [] := by
  match l with
  | [] => simp [splitOnDD]
  | [c] => simp [splitOnDD]
  | c :: d :: rest =>
      unfold splitOnDD
      split_ifs
      · simp
      · intro h
        rw [List.modifyHead_eq_nil_iff] at h
        exact splitOnDD_ne_nil (d :: rest) h

/-- Splitting at a leading `..` produces an empty first piece. -/
theorem splitOnDD_sep (l : List Char) :
    splitOnDD ('.' :: '.' :: l) = [] :: splitOnDD l := by
  conv_lhs => unfold splitOnDD
  rw [if_pos ⟨rfl, rfl⟩]

/-- When the first two characters are not `..`, the head character is
prepended to the first piece of the rest of the split. -/
theorem splitOnDD_cons_cons (c d : Char) (rest : List Char)
    (h : ¬(c = '.' ∧ d = '.')) :
    splitOnDD (c :: d :: rest)
      = (splitOnDD (d :: rest)).modifyHead (fun l => c :: l) := by
  conv_lhs => unfold splitOnDD
  rw [if_neg h]

end Honeybee

namespace Honeybee

/-- A piece containing no dot is not split further. -/
theorem splitOnDD_nodot (a : List Char) (h : ∀ c ∈ a, c ≠ '.') :
    splitOnDD a = [a] := by
  induction a with
  | nil => rfl
  | cons c a2 ih =>
      have hc : c ≠ '.' := h c (List.mem_cons_self c a2)
      have h2 : ∀ x ∈ a2, x ≠ '.' :=
        fun x hx => h x (List.mem_cons_of_mem c hx)
      match a2 with
      | [] => rfl
      | d :: r =>
          rw [splitOnDD_cons_cons c d r (fun hcd => hc hcd.1), ih h2]
          rfl

/-- Splitting a dot-free prefix followed by `..`: the prefix becomes the
first piece. -/
theorem splitOnDD_append_sep (a : List Char) (l : List Char)
    (h : ∀ c ∈ a, c ≠ '.') :
    splitOnDD (a ++ '.' :: '.' :: l) = a :: splitOnDD l := by
  induction a with
  | nil => exact splitOnDD_sep l
  | cons c a2 ih =>
      have hc : c ≠ '.' := h c (List.mem_cons_self c a2)
      have h2 : ∀ x ∈ a2, x ≠ '.' :=
        fun x hx => h x (List.mem_cons_of_mem c hx)
      have ih2 := ih h2
      match ha : a2 ++ '.' :: '.' :: l with
      | [] => exact absurd ha (by simp)
      | d :: r =>
          rw [List.cons_append, ha,
            splitOnDD_cons_cons c d r
              (fun hcd => hc hcd.1),
            ← ha, ih2]
          rfl

/-- If the separator `..` occurs anywhere, the split has at least two
pieces. -/
theorem two_le_splitOnDD_of_sep (l : List Char) :
    ∀ a b : List Char, l = a ++ '.' :: '.' :: b →
      2 ≤ (splitOnDD l).length := by
  induction l with
  | nil =>
      intro a b hab
      exact absurd hab.symm (by simp)
  | cons c rest ih =>
      intro a b hab
      match a, hab with
      | [], hab =>
          obtain ⟨rfl, rfl⟩ : c = '.' ∧ rest = '.' :: b := by
            injection hab with h1 h2
            exact ⟨h1, h2⟩
          rw [splitOnDD_sep]
          have := splitOnDD_ne_nil b
          simp [List.length_pos]
          exact List.length_pos.mpr this
      | c2 :: a2, hab =>
          obtain ⟨rfl, hrest⟩ : c2 = c ∧ rest = a2 ++ '.' :: '.' :: b := by
            injection hab with h1 h2
            exact ⟨h1.symm, h2⟩
          have hlen := ih a2 b hrest
          match rest, hrest with
          | d :: r, hrest =>
              by_cases hcd : c2 = '.' ∧ d = '.'
              · rw [hcd.1, hcd.2, splitOnDD_sep]
                have := splitOnDD_ne_nil r
                simp [List.length_pos]
                exact List.length_pos.mpr this
              · rw [splitOnDD_cons_cons c2 d r hcd, List.length_modifyHead]
                exact hlen

/-- If the split has at least two pieces, the separator `..` occurs
somewhere. -/
theorem sep_of_two_le_splitOnDD (l : List Char) :
    2 ≤ (splitOnDD l).length →
      ∃ a b : List Char, l = a ++ '.' :: '.' :: b := by
  induction l with
  | nil =>
      intro h
      simp [splitOnDD] at h
  | cons c rest ih =>
      intro h
      match rest with
      | [] => simp [splitOnDD] at h
      | d :: r =>
          by_cases hcd : c = '.' ∧ d = '.'
          · exact ⟨[], r, by rw [hcd.1, hcd.2]; rfl⟩
          · rw [splitOnDD_cons_cons c d r hcd, List.length_modifyHead] at h
            obtain ⟨a, b, hab⟩ := ih h
            exact ⟨c :: a, b, by rw [List.cons_append, hab]⟩

end Honeybee

namespace Honeybee

/-- takeWhile of a list all of whose elements satisfy the predicate,
followed by a failing element, is the list itself. -/
theorem takeWhile_append_cons_neg {α : Type} (p : α → Bool)
    (xs : List α) (y : α) (ys : List α)
    (hxs : ∀ x ∈ xs, p x = true) (hy : p y = false) :
    (xs ++ y :: ys).takeWhile p = xs := by
  induction xs with
  | nil => simp [List.takeWhile_cons, hy]
  | cons x xs2 ih =>
      have hx := hxs x (List.mem_cons_self x xs2)
      have h2 : ∀ a ∈ xs2, p a = true :=
        fun a ha => hxs a (List.mem_cons_of_mem x ha)
      rw [List.cons_append, List.takeWhile_cons, hx, ih h2]
      simp

/-- A path without slashes is its own base name. -/
theorem pathBase_no_slash (s : List Char) (h : ∀ c ∈ s, c ≠ '/') :
    pathBase s = s := by
  unfold pathBase
  rw [List.takeWhile_eq_self_iff.mpr, List.reverse_reverse]
  intro c hc
  have := h c (List.mem_reverse.mp hc)
  simpa using this

/-- The base name of `dir ++ "/" ++ name` for a slash-free `name` is
`name`. -/
theorem pathBase_append_slash (d n : List Char) (h : ∀ c ∈ n, c ≠ '/') :
    pathBase (d ++ '/' :: n) = n := by
  unfold pathBase
  rw [List.reverse_append, List.reverse_cons, List.append_assoc,
    List.singleton_append,
    takeWhile_append_cons_neg _ n.reverse '/' d.reverse
      (fun c hc => by simpa using h c (List.mem_reverse.mp hc)) (by simp),
    List.reverse_reverse]

/-- Dropping the last four characters of `x ++ e` with `e` of length 4
recovers `x`. -/
theorem dropExt4_append (x e : List Char) (h : e.length = 4) :
    dropExt4 (x ++ e) = x := by
  unfold dropExt4
  rw [List.length_append, h, Nat.add_sub_cancel]
  exact List.take_left x e

end Honeybee

/-- Claim C10: `results` recovers (source, state) by removing exactly the
last four characters of the file's base name, splitting the remainder on
the two-character delimiter `..`, and taking the last two segments.  For
every name of the shape `<prefix>..<source>..<state>.<3-char-extension>`
(segments free of dots and slashes) the intended identity is recovered;
the accompanying concrete conjuncts show it is recovered as intended ONLY
for such names: a four-character extension corrupts the state segment, and
single-dot separators are not recognized at all. -/
theorem C10_parse_drops_four_then_splits_on_dd :
    (∀ p s t e : List Char,
      (∀ c ∈ p, c ≠ '.' ∧ c ≠ '/') →
      (∀ c ∈ s, c ≠ '.' ∧ c ≠ '/') →
      (∀ c ∈ t, c ≠ '.' ∧ c ≠ '/') →
      (∀ c ∈ e, c ≠ '/') →
      e.length = 3 →
      parseCore (p ++ '.' :: '.' :: (s ++ '.' :: '.' :: (t ++ '.' :: e)))
        = .ok (s, t))
    ∧ parseSourceState "dir/a..south..0.ill" = .ok ("south", "0")
    ∧ parseSourceState "a..south..0.json" = .ok ("south", "0.")
    ∧ parseSourceState "a.south.0.ill" = .error .indexError := by
  refine ⟨?_, by rfl, by rfl, by rfl⟩
  intro p s t e hp hs ht he hlen
  have hnos : ∀ c ∈ p ++ '.' :: '.' :: (s ++ '.' :: '.' :: (t ++ '.' :: e)),
      c ≠ '/' := by
    intro c hc
    simp only [List.mem_append, List.mem_cons] at hc
    rcases hc with hc | hc | hc | hc | hc | hc | hc | hc | hc
    · exact (hp c hc).2
    · rw [hc]; decide
    · rw [hc]; decide
    · exact (hs c hc).2
    · rw [hc]; decide
    · rw [hc]; decide
    · exact (ht c hc).2
    · rw [hc]; decide
    · exact he c hc
  have hassoc : p ++ '.' :: '.' :: (s ++ '.' :: '.' :: (t ++ '.' :: e))
      = (p ++ '.' :: '.' :: (s ++ '.' :: '.' :: t)) ++ ('.' :: e) := by
    simp
  simp only [parseCore, trimmedBase]
  rw [pathBase_no_slash _ hnos, hassoc,
    dropExt4_append _ ('.' :: e) (by simp [hlen]),
    splitOnDD_append_sep p _ (fun c hc => (hp c hc).1),
    splitOnDD_append_sep s t (fun c hc => (hs c hc).1),
    splitOnDD_nodot t (fun c hc => (ht c hc).1)]
  rfl

/-- Witness for C10 at concrete segments: the name `a..s..t.ill` parses to
source `s` and state `t`. -/
theorem C10_parse_drops_four_then_splits_on_dd_witness :
    parseCore (['a'] ++ '.' :: '.' :: (['s'] ++ '.' :: '.'
        :: (['t'] ++ '.' :: ['i', 'l', 'l'])))
      = .ok (['s'], ['t']) :=
  (C10_parse_drops_four_then_splits_on_dd).1 ['a'] ['s'] ['t'] ['i', 'l', 'l']
    (by decide) (by decide) (by decide) (by decide) (by decide)

/-- Counterexample to C6: the name `grid.south.0.ill` has (more than) two
trailing dot-separated segments, so under the claim the merger should
assign `source = "south"`, `state = "0"`; the code instead raises a plain
`IndexError` (there is no `MalformedResultFileError` anywhere in the code),
because it splits on the two-character delimiter `..`, not on single dots.
Moreover `..x.res` is silently parsed with `source = ""`. -/
theorem C6_counterexample_dot_separated_name :
    parseSourceState "grid.south.0.ill" = .error .indexError
    ∧ parseSourceState "grid.south.0.ill" ≠ .ok ("south", "0")
    ∧ parseSourceState "..x.res" = .ok ("", "x") := by
  refine ⟨by rfl, ?_, by rfl⟩
  intro h
  rw [show parseSourceState "grid.south.0.ill" = .error .indexError
      from rfl] at h
  exact Except.noConfusion h

/-- Claim C6 as amended: the merger splits the base name, minus its last
four characters, on the two-character delimiter `..` (not on single dots);
when no `..` occurs in it — so fewer than two pieces result — `results`
raises an `IndexError` (the code has no `MalformedResultFileError` class)
and assigns nothing; when at least two pieces result it assigns source and
state from the trailing two pieces. -/
theorem C6_amended_double_dot_segments (rf : List Char) :
    ((¬ ∃ a b : List Char, trimmedBase rf = a ++ '.' :: '.' :: b) →
      parseCore rf = .error .indexError)
    ∧ (∀ a b : List Char, trimmedBase rf = a ++ '.' :: '.' :: b →
        ∃ s t : List Char, parseCore rf = .ok (s, t)
          ∧ s = (splitOnDD (trimmedBase rf)).getD
              ((splitOnDD (trimmedBase rf)).length - 2) []
          ∧ t = (splitOnDD (trimmedBase rf)).getLastD []) := by
  constructor
  · intro hno
    unfold parseCore
    rw [if_neg]
    intro hlen
    exact hno (sep_of_two_le_splitOnDD (trimmedBase rf) hlen)
  · intro a b hab
    refine ⟨_, _, ?_, rfl, rfl⟩
    unfold parseCore
    rw [if_pos (two_le_splitOnDD_of_sep (trimmedBase rf) a b hab)]

/-- Witness for the amended C6: `abc.ill` (no `..` in the trimmed base)
raises the index error, while `p..s..0.ill` parses into its trailing two
`..`-separated pieces. -/
theorem C6_amended_double_dot_segments_witness :
    (parseCore ("abc.ill".data) = .error .indexError)
    ∧ ∃ s t : List Char, parseCore ("p..s..0.ill".data) = .ok (s, t)
        ∧ s = (splitOnDD (trimmedBase ("p..s..0.ill".data))).getD
            ((splitOnDD (trimmedBase ("p..s..0.ill".data))).length - 2) []
        ∧ t = (splitOnDD (trimmedBase ("p..s..0.ill".data))).getLastD [] :=
  ⟨(C6_amended_double_dot_segments ("abc.ill".data)).1
      (fun ⟨a, b, hab⟩ => by
        have h2 := two_le_splitOnDD_of_sep
          (trimmedBase ("abc.ill".data)) a b hab
        rw [show trimmedBase ("abc.ill".data) = ['a', 'b', 'c'] from rfl]
          at h2
        exact absurd h2 (by decide)),
   (C6_amended_double_dot_segments ("p..s..0.ill".data)).2
      ['p'] ['s', '.', '.', '0'] (by rfl)⟩
